import Mathlib

/-!
Shallow embedding of the GOALDEN server-action modules (announcements /
admin-messages module and system-settings module) and of the percentage
aggregations of the admin analytics dashboard and the badge colour maps of
the tournament header component.

Modelling conventions:
* The Supabase database is an oracle: every query a server action issues
  receives its response as an explicit argument.  Queries ending in
  `.single()` respond with `Except QueryError row` (the supabase contract:
  exactly one of `data`/`error`), list selects with `DbResp (List row)`
  (both a nullable `data` and a nullable `error` field, exactly the object
  shape the code destructures), count queries with `CountResp`.
* `getCurrentUser()` is the `user : Option User` argument.
* Machine time is an explicit argument (`now` for `new Date().toISOString()`,
  `responseTime` for the measured probe latency in milliseconds).
* Every `insert` / `update` / `upsert` the action issues is recorded in the
  returned `List DbWrite`; selects are not writes.
* JavaScript numbers are modelled as `ℚ` (exact rationals) where fractional
  arithmetic occurs, `Nat`/`Int` elsewhere; `Math.round` is `jsRound`
  (floor of x + 1/2, JS rounds half toward +inf).
* JS truthiness on optional strings (`undefined`/`''` falsy) is
  `optStrTruthy` / `jsOr`.
-/

namespace Goalden

/-- A supabase error object: `message` and `code` fields (the only fields the
code reads). -/
structure QueryError where
  message : String
  code : String
deriving DecidableEq

/-- The authenticated caller as returned by `getCurrentUser()`: the code reads
only `id` and `role`. -/
structure User where
  id : String
  role : String
deriving DecidableEq

/-- The guard `!user || user.role !== 'admin'` of every admin-gated action,
as a positive predicate: caller present and role is `'admin'`. -/
def isAdmin : Option User → Bool
  | some u => u.role == "admin"
  | none => false

/-- Response of a list-returning select: nullable `data` and nullable `error`,
the object shape the actions destructure. -/
structure DbResp (α : Type) where
  data : Option α
  error : Option QueryError

/-- Response of a `count: 'exact', head: true` query: nullable `count` and
nullable `error`. -/
structure CountResp where
  count : Option Nat
  error : Option QueryError
deriving DecidableEq

/-- The uniform result object a server action returns: a nullable `data`
field and a nullable `error` message.  Actions that return only `{ error }`
leave `data` at `none`. -/
structure ActionResp (α : Type) where
  data : Option α := none
  error : Option String := none

/-- JS `x || dflt` on an optional string: `undefined` and `''` are falsy. -/
def jsOr (v : Option String) (dflt : String) : String :=
  match v with
  | some s => if s == "" then dflt else s
  | none => dflt

/-- JS truthiness of an optional string (`data.scheduled_at ? _ : _`):
true exactly when present and non-empty. -/
def optStrTruthy : Option String → Bool
  | some s => s != ""
  | none => false

/-- JS `Math.round`: round half toward positive infinity. -/
def jsRound (q : ℚ) : ℤ := ⌊q + 1/2⌋

/-! ### Announcements module (communications actions, part 1) -/

/-- The `type` union of `createAnnouncement`'s input. -/
inductive AnnType
  | general | tournament | maintenance | urgent
deriving DecidableEq

/-- The `target` union of `createAnnouncement`'s input. -/
inductive AnnTarget
  | all | active | tournament | specific
deriving DecidableEq

/-- The input object of `createAnnouncement`. -/
structure CreateAnnouncementInput where
  title : String
  content : String
  type : AnnType
  target : AnnTarget
  scheduled_at : Option String
deriving DecidableEq

/-- The row `createAnnouncement` passes to
`supabase.from('announcements').insert({...})`. -/
structure AnnouncementInsert where
  title : String
  content : String
  type : AnnType
  target : AnnTarget
  status : String
  sent_at : Option String
  scheduled_at : Option String
  recipients : Nat
  opened : Nat
  clicked : Nat
  created_by : String
deriving DecidableEq

/-- The `status` union of `updateMessageStatus`'s parameter. -/
inductive MessageStatus
  | unread | read | replied
deriving DecidableEq

/-- The string the `MessageStatus` union member denotes. -/
def MessageStatus.toStr : MessageStatus → String
  | .unread => "unread"
  | .read => "read"
  | .replied => "replied"

/-- The `priority` union of `sendMessageToAdmin`'s input. -/
inductive Priority
  | low | medium | high | urgent
deriving DecidableEq

/-- The string the `Priority` union member denotes. -/
def Priority.toStr : Priority → String
  | .low => "low"
  | .medium => "medium"
  | .high => "high"
  | .urgent => "urgent"

/-- The row `sendMessageToAdmin` passes to
`supabase.from('admin_messages').insert({...})`. -/
structure AdminMessageInsert where
  user_id : String
  subject : String
  content : String
  priority : String
  status : String
deriving DecidableEq

/-- The embedded `profiles` record joined into an admin-message row (the code
reads `full_name` and `email`, both nullable). -/
structure ProfileEmb where
  id : String
  full_name : Option String
  email : Option String
deriving DecidableEq

/-- An `admin_messages` row as selected by `getAdminMessages` /
`getAdminMessage` (the fields the code reads). -/
structure AdminMessageRow where
  id : String
  user_id : String
  subject : String
  content : String
  status : String
  priority : String
  created_at : String
  profiles : Option ProfileEmb
deriving DecidableEq

/-- The `Message` view object both message getters build from a row. -/
structure MessageView where
  id : String
  player_name : String
  player_email : String
  subject : String
  content : String
  status : String
  created_at : String
  priority : String
  user_id : String
deriving DecidableEq

/-- The row-to-`Message` transformation shared by `getAdminMessages` and
`getAdminMessage`: `profiles?.full_name || 'Unknown'`,
`profiles?.email || ''`. -/
def toMessage (msg : AdminMessageRow) : MessageView :=
  { id := msg.id
    player_name := jsOr (msg.profiles.bind (·.full_name)) "Unknown"
    player_email := jsOr (msg.profiles.bind (·.email)) ""
    subject := msg.subject
    content := msg.content
    status := msg.status
    created_at := msg.created_at
    priority := msg.priority
    user_id := msg.user_id }

/-- The `user_id, subject` projection `replyToMessage` fetches of the
original message. -/
structure OrigMessage where
  user_id : String
  subject : String
deriving DecidableEq

/-- The opaque `settings: any` payload of `updateSystemSettings`, modelled as
an uninterpreted key-value object. -/
structure SettingsAny where
  fields : List (String × String)
deriving DecidableEq

/-- Every database write the modelled actions can issue, with the payload the
code passes. -/
inductive DbWrite
  | insertAnnouncement (row : AnnouncementInsert)
  | updateAnnouncement (id : String) (opened clicked : Option Nat)
  | updateAdminMessageStatus (id : String) (status : String)
  | insertAdminMessage (row : AdminMessageInsert)
  | upsertSystemSettings (id : Nat) (settings : SettingsAny) (updated_at : String)
deriving DecidableEq

/-- `getAnnouncements`: admin-gated select over `announcements`, data passed
through untouched. -/
def getAnnouncements {α : Type} (user : Option User)
    (q : DbResp (List α)) : ActionResp (List α) × List DbWrite :=
  if isAdmin user = false then ({ error := some "Unauthorized", data := none }, [])
  else
    match q.error with
    | some e => ({ error := some e.message, data := none }, [])
    | none => ({ data := q.data, error := none }, [])

/-- `createAnnouncement`: admin-gated; `status`/`sent_at` from the truthiness
of `scheduled_at`; recipient count from the target-selected count query
(`count || 0`); inserts the row and returns the created row or the insert
error message. -/
def createAnnouncement (user : Option User) (input : CreateAnnouncementInput)
    (now : String) (allCount activeCount regCount : CountResp)
    (ins : Except QueryError AnnouncementInsert) :
    ActionResp AnnouncementInsert × List DbWrite :=
  match user with
  | none => ({ error := some "Unauthorized" }, [])
  | some u =>
    if u.role != "admin" then ({ error := some "Unauthorized" }, [])
    else
      let status := if optStrTruthy input.scheduled_at then "scheduled" else "draft"
      let sent_at := if optStrTruthy input.scheduled_at then none else some now
      let recipients :=
        match input.target with
        | .all => allCount.count.getD 0
        | .active => activeCount.count.getD 0
        | .tournament => regCount.count.getD 0
        | .specific => 0
      let row : AnnouncementInsert :=
        { title := input.title
          content := input.content
          type := input.type
          target := input.target
          status := status
          sent_at := sent_at
          scheduled_at := if optStrTruthy input.scheduled_at then input.scheduled_at else none
          recipients := recipients
          opened := 0
          clicked := 0
          created_by := u.id }
      match ins with
      | .error e => ({ error := some e.message }, [.insertAnnouncement row])
      | .ok announcement =>
        ({ data := some announcement, error := none }, [.insertAnnouncement row])

/-- The `stats` input of `updateAnnouncementStats`. -/
structure AnnouncementStats where
  opened : Option Nat
  clicked : Option Nat
deriving DecidableEq

/-- `updateAnnouncementStats`: issues the update unconditionally — the source
performs no `getCurrentUser` / admin check — and surfaces the update error. -/
def updateAnnouncementStats (announcementId : String) (stats : AnnouncementStats)
    (upd : Option QueryError) : ActionResp Unit × List DbWrite :=
  let writes := [DbWrite.updateAnnouncement announcementId stats.opened stats.clicked]
  match upd with
  | some e => ({ error := some e.message }, writes)
  | none => ({ error := none }, writes)

/-- `getAdminMessages`: admin-gated select with the `Message` transformation
(`data?.map(...) || []`). -/
def getAdminMessages (user : Option User)
    (q : DbResp (List AdminMessageRow)) : ActionResp (List MessageView) × List DbWrite :=
  if isAdmin user = false then ({ error := some "Unauthorized", data := none }, [])
  else
    match q.error with
    | some e => ({ error := some e.message, data := none }, [])
    | none => ({ data := some (((q.data.getD []).map toMessage)), error := none }, [])

/-- `getAdminMessage`: admin-gated `.single()` select of one message with the
`Message` transformation. -/
def getAdminMessage (user : Option User) (messageId : String)
    (q : Except QueryError AdminMessageRow) : ActionResp MessageView × List DbWrite :=
  if isAdmin user = false then ({ error := some "Unauthorized", data := none }, [])
  else
    match q with
    | .error e => ({ error := some e.message, data := none }, [])
    | .ok d => ({ data := some (toMessage d), error := none }, [])

/-- `updateMessageStatus`: admin-gated update of one message's `status` to a
member of the `'unread' | 'read' | 'replied'` union. -/
def updateMessageStatus (user : Option User) (messageId : String)
    (status : MessageStatus) (upd : Option QueryError) :
    ActionResp Unit × List DbWrite :=
  if isAdmin user = false then ({ error := some "Unauthorized" }, [])
  else
    let writes := [DbWrite.updateAdminMessageStatus messageId status.toStr]
    match upd with
    | some e => ({ error := some e.message }, writes)
    | none => ({ error := none }, writes)

/-- `replyToMessage`: admin-gated; fetches the original message
(`fetchError || !originalMessage` → `'Message not found'`), then sets its
status to `'replied'` without inspecting the update's outcome; the `reply`
string is never used. -/
def replyToMessage (user : Option User) (messageId : String) (reply : String)
    (fetch : Except QueryError OrigMessage) : ActionResp Unit × List DbWrite :=
  if isAdmin user = false then ({ error := some "Unauthorized" }, [])
  else
    match fetch with
    | .error _ => ({ error := some "Message not found" }, [])
    | .ok _ =>
      ({ error := none }, [DbWrite.updateAdminMessageStatus messageId "replied"])

/-- A `created_at, updated_at` projection of a replied message, timestamps
modelled as rational milliseconds since epoch (`new Date(s).getTime()`). -/
structure RepliedTimesRow where
  created_at : ℚ
  updated_at : Option ℚ
deriving DecidableEq

/-- A `recipients, opened` projection of a sent announcement, both fields
nullable. -/
structure EngagementRow where
  recipients : Option Nat
  opened : Option Nat
deriving DecidableEq

/-- The statistics object `getCommunicationStats` returns. -/
structure CommStats where
  totalAnnouncements : Nat
  totalMessages : Nat
  unreadMessages : Nat
  responseRate : ℤ
  avgResponseTime : ℚ
  engagementRate : ℤ
deriving DecidableEq

/-- `getCommunicationStats`: admin-gated aggregation over four count queries
and two list selects; every query error is ignored (counts coalesced with
`|| 0`, list data with `data &&`), and the action always returns
`error: null` past the auth gate. -/
def getCommunicationStats (user : Option User)
    (annCount msgCount unreadCount repliedCount : CountResp)
    (repliedData : DbResp (List RepliedTimesRow))
    (annData : DbResp (List EngagementRow)) :
    ActionResp CommStats × List DbWrite :=
  if isAdmin user = false then ({ error := some "Unauthorized", data := none }, [])
  else
    let responseRate : ℤ :=
      match msgCount.count with
      | some t => if 0 < t then jsRound ((repliedCount.count.getD 0 : ℚ) / t * 100) else 0
      | none => 0
    let avgResponseTime : ℚ :=
      match repliedData.data with
      | some rows =>
        if 0 < rows.length then
          let totalTime := rows.foldl
            (fun sum msg =>
              sum + ((msg.updated_at.getD msg.created_at) - msg.created_at) / (1000 * 60 * 60))
            0
          (jsRound (totalTime / rows.length * 10) : ℚ) / 10
        else 0
      | none => 0
    let engagementRate : ℤ :=
      match annData.data with
      | some announcements =>
        if 0 < announcements.length then
          let totalRecipients : ℕ :=
            announcements.foldl (fun sum a => sum + a.recipients.getD 0) 0
          let totalOpened : ℕ :=
            announcements.foldl (fun sum a => sum + a.opened.getD 0) 0
          if 0 < totalRecipients then jsRound ((totalOpened : ℚ) / totalRecipients * 100) else 0
        else 0
      | none => 0
    ({ data := some
        { totalAnnouncements := annCount.count.getD 0
          totalMessages := msgCount.count.getD 0
          unreadMessages := unreadCount.count.getD 0
          responseRate := responseRate
          avgResponseTime := avgResponseTime
          engagementRate := engagementRate }
       error := none }, [])

/-- The input object of `sendMessageToAdmin`. -/
structure SendMessageInput where
  subject : String
  content : String
  priority : Option Priority
deriving DecidableEq

/-- `sendMessageToAdmin`: gated only on a signed-in user (any role); inserts
an `admin_messages` row with `priority || 'medium'` and status `'unread'`. -/
def sendMessageToAdmin {α : Type} (user : Option User) (input : SendMessageInput)
    (ins : Except QueryError α) : ActionResp α × List DbWrite :=
  match user with
  | none => ({ error := some "Unauthorized" }, [])
  | some u =>
    let row : AdminMessageInsert :=
      { user_id := u.id
        subject := input.subject
        content := input.content
        priority := (input.priority.map Priority.toStr).getD "medium"
        status := "unread" }
    match ins with
    | .error e => ({ error := some e.message }, [.insertAdminMessage row])
    | .ok message => ({ data := some message, error := none }, [.insertAdminMessage row])

/-! ### System-settings module (part 2) -/

/-- The `platform` settings group. -/
structure PlatformSettings where
  name : String
  version : String
  maintenance_mode : Bool
  registration_enabled : Bool
  tournaments_enabled : Bool
deriving DecidableEq

/-- The `security` settings group. -/
structure SecuritySettings where
  password_min_length : Nat
  session_timeout : Nat
  two_factor_enabled : Bool
  ip_whitelist : List String
deriving DecidableEq

/-- The `notifications` settings group. -/
structure NotificationSettings where
  email_enabled : Bool
  sms_enabled : Bool
  push_enabled : Bool
  whatsapp_enabled : Bool
deriving DecidableEq

/-- The `payments` settings group. -/
structure PaymentSettings where
  mpesa_enabled : Bool
  stripe_enabled : Bool
  minimum_amount : Nat
  maximum_amount : Nat
deriving DecidableEq

/-- A possibly-incomplete stored `platform` group: each field may be absent,
spread over the defaults. -/
structure PlatformPatch where
  name : Option String
  version : Option String
  maintenance_mode : Option Bool
  registration_enabled : Option Bool
  tournaments_enabled : Option Bool
deriving DecidableEq

/-- A possibly-incomplete stored `security` group. -/
structure SecurityPatch where
  password_min_length : Option Nat
  session_timeout : Option Nat
  two_factor_enabled : Option Bool
  ip_whitelist : Option (List String)
deriving DecidableEq

/-- A possibly-incomplete stored `notifications` group. -/
structure NotificationPatch where
  email_enabled : Option Bool
  sms_enabled : Option Bool
  push_enabled : Option Bool
  whatsapp_enabled : Option Bool
deriving DecidableEq

/-- A possibly-incomplete stored `payments` group. -/
structure PaymentPatch where
  mpesa_enabled : Option Bool
  stripe_enabled : Option Bool
  minimum_amount : Option Nat
  maximum_amount : Option Nat
deriving DecidableEq

/-- A `system_settings` row: each group nullable, each group possibly
incomplete. -/
structure SettingsRow where
  platform : Option PlatformPatch
  security : Option SecurityPatch
  notifications : Option NotificationPatch
  payments : Option PaymentPatch
deriving DecidableEq

/-- The full settings object `getSystemSettings` returns. -/
structure SystemSettingsData where
  platform : PlatformSettings
  security : SecuritySettings
  notifications : NotificationSettings
  payments : PaymentSettings
deriving DecidableEq

/-- The `defaultSettings` literal of `getSystemSettings`. -/
def defaultSettings : SystemSettingsData :=
  { platform :=
      { name := "GOALDEN"
        version := "1.2.0"
        maintenance_mode := false
        registration_enabled := true
        tournaments_enabled := true }
    security :=
      { password_min_length := 8
        session_timeout := 24
        two_factor_enabled := false
        ip_whitelist := [] }
    notifications :=
      { email_enabled := true
        sms_enabled := false
        push_enabled := true
        whatsapp_enabled := false }
    payments :=
      { mpesa_enabled := true
        stripe_enabled := false
        minimum_amount := 50
        maximum_amount := 10000 } }

/-- `{ ...defaults.platform, ...(data.platform || {}) }`. -/
def mergePlatform (d : PlatformSettings) (p : Option PlatformPatch) : PlatformSettings :=
  match p with
  | none => d
  | some p =>
    { name := p.name.getD d.name
      version := p.version.getD d.version
      maintenance_mode := p.maintenance_mode.getD d.maintenance_mode
      registration_enabled := p.registration_enabled.getD d.registration_enabled
      tournaments_enabled := p.tournaments_enabled.getD d.tournaments_enabled }

/-- `{ ...defaults.security, ...(data.security || {}) }`. -/
def mergeSecurity (d : SecuritySettings) (p : Option SecurityPatch) : SecuritySettings :=
  match p with
  | none => d
  | some p =>
    { password_min_length := p.password_min_length.getD d.password_min_length
      session_timeout := p.session_timeout.getD d.session_timeout
      two_factor_enabled := p.two_factor_enabled.getD d.two_factor_enabled
      ip_whitelist := p.ip_whitelist.getD d.ip_whitelist }

/-- `{ ...defaults.notifications, ...(data.notifications || {}) }`. -/
def mergeNotifications (d : NotificationSettings) (p : Option NotificationPatch) :
    NotificationSettings :=
  match p with
  | none => d
  | some p =>
    { email_enabled := p.email_enabled.getD d.email_enabled
      sms_enabled := p.sms_enabled.getD d.sms_enabled
      push_enabled := p.push_enabled.getD d.push_enabled
      whatsapp_enabled := p.whatsapp_enabled.getD d.whatsapp_enabled }

/-- `{ ...defaults.payments, ...(data.payments || {}) }`. -/
def mergePayments (d : PaymentSettings) (p : Option PaymentPatch) : PaymentSettings :=
  match p with
  | none => d
  | some p =>
    { mpesa_enabled := p.mpesa_enabled.getD d.mpesa_enabled
      stripe_enabled := p.stripe_enabled.getD d.stripe_enabled
      minimum_amount := p.minimum_amount.getD d.minimum_amount
      maximum_amount := p.maximum_amount.getD d.maximum_amount }

/-- `getSystemSettings`: admin-gated `.single()` select; an error whose code
is not `'PGRST116'` is surfaced, `'PGRST116'` (no rows) falls through to the
defaults; stored groups are spread over the defaults. -/
def getSystemSettings (user : Option User)
    (q : Except QueryError SettingsRow) : ActionResp SystemSettingsData × List DbWrite :=
  if isAdmin user = false then ({ error := some "Unauthorized", data := none }, [])
  else
    match q with
    | .error e =>
      if e.code != "PGRST116" then ({ error := some e.message, data := none }, [])
      else ({ data := some defaultSettings, error := none }, [])
    | .ok d =>
      ({ data := some
          { platform := mergePlatform defaultSettings.platform d.platform
            security := mergeSecurity defaultSettings.security d.security
            notifications := mergeNotifications defaultSettings.notifications d.notifications
            payments := mergePayments defaultSettings.payments d.payments }
         error := none }, [])

/-- `updateSystemSettings`: admin-gated upsert of row `id: 1` with the opaque
settings payload and `updated_at: now`. -/
def updateSystemSettings (user : Option User) (settings : SettingsAny)
    (now : String) (up : Option QueryError) : ActionResp Unit × List DbWrite :=
  if isAdmin user = false then ({ error := some "Unauthorized" }, [])
  else
    let writes := [DbWrite.upsertSystemSettings 1 settings now]
    match up with
    | some e => ({ error := some e.message }, writes)
    | none => ({ error := none }, writes)

/-- The health object `getSystemHealth` returns; `uptime` modelled as `ℚ`. -/
structure SystemHealthData where
  status : String
  uptime : ℚ
  response_time : Nat
  database_status : String
  storage_usage : Nat
  memory_usage : Nat
  cpu_usage : Nat
  active_users : Nat
  concurrent_tournaments : Nat
deriving DecidableEq

/-- `getSystemHealth`: admin-gated; two ignored count queries, a probe select
whose error / measured latency classify `database_status`; fixed values for
uptime, storage, memory and CPU; always `error: null` past the auth gate. -/
def getSystemHealth (user : Option User) (activeCount concCount : CountResp)
    (probe : DbResp Unit) (responseTime : Nat) :
    ActionResp SystemHealthData × List DbWrite :=
  if isAdmin user = false then ({ error := some "Unauthorized", data := none }, [])
  else
    let databaseStatus :=
      if probe.error.isSome then "disconnected"
      else if 1000 < responseTime then "slow"
      else "connected"
    ({ data := some
        { status := if databaseStatus == "connected" then "healthy" else "critical"
          uptime := 99.9
          response_time := responseTime
          database_status := databaseStatus
          storage_usage := 65
          memory_usage := 45
          cpu_usage := 23
          active_users := activeCount.count.getD 0
          concurrent_tournaments := concCount.count.getD 0 }
       error := none }, [])

/-- A `role` projection of a `profiles` row, nullable. -/
structure RoleRow where
  role : Option String
deriving DecidableEq

/-- The view object `getUserRoles` builds per role. -/
structure UserRoleView where
  id : String
  name : String
  permissions : List String
  created_at : String
  user_count : Nat
deriving DecidableEq

/-- One step of the `roleCounts` reduce: bump the role's count in an
insertion-ordered record. -/
def bumpRole (acc : List (String × Nat)) (r : String) : List (String × Nat) :=
  match acc with
  | [] => [(r, 1)]
  | (k, v) :: rest => if k == r then (k, v + 1) :: rest else (k, v) :: bumpRole rest r

/-- `name.charAt(0).toUpperCase() + name.slice(1)`. -/
def capitalizeWord (s : String) : String :=
  match s.data with
  | [] => ""
  | c :: cs => String.mk (c.toUpper :: cs)

/-- The `rolePermissions` record of `getUserRoles` (`rolePermissions[name]
|| []`). -/
def rolePermissions (name : String) : List String :=
  if name == "admin" then ["all"]
  else if name == "player" then ["tournaments", "matches"]
  else []

/-- `getUserRoles`: admin-gated select of all profile roles, counted per role
(`role || 'player'`) and mapped to role view objects. -/
def getUserRoles (user : Option User)
    (q : DbResp (List RoleRow)) : ActionResp (List UserRoleView) × List DbWrite :=
  if isAdmin user = false then ({ error := some "Unauthorized", data := none }, [])
  else
    match q.error with
    | some e => ({ error := some e.message, data := none }, [])
    | none =>
      let roleCounts : List (String × Nat) :=
        match q.data with
        | some profiles =>
          profiles.foldl (fun acc (p : RoleRow) => bumpRole acc (jsOr p.role "player")) []
        | none => []
      let userRoles := roleCounts.map fun (nc : String × Nat) =>
        { id := nc.1
          name := capitalizeWord nc.1
          permissions := rolePermissions nc.1
          created_at := "2024-01-01"
          user_count := nc.2 : UserRoleView }
      ({ data := some userRoles, error := none }, [])

/-! ### Analytics dashboard percentage aggregations (`loadAnalytics`) -/

/-- `revenue.growth` of `loadAnalytics`:
`monthlyRevenue > 0 ? Math.round(((m - m*0.8) / (m*0.8)) * 100) : 0`. -/
def revenueGrowth (monthlyRevenue : ℚ) : ℤ :=
  if 0 < monthlyRevenue then
    jsRound ((monthlyRevenue - monthlyRevenue * (8/10)) / (monthlyRevenue * (8/10)) * 100)
  else 0

/-- `players.growth` of `loadAnalytics`:
`newPlayersThisMonth > 0 ? Math.round(((n - n*0.7) / (n*0.7)) * 100) : 0`. -/
def playersGrowth (newPlayersThisMonth : ℕ) : ℤ :=
  if 0 < newPlayersThisMonth then
    jsRound (((newPlayersThisMonth : ℚ) - newPlayersThisMonth * (7/10))
      / (newPlayersThisMonth * (7/10)) * 100)
  else 0

/-- `tournaments.completionRate` of `loadAnalytics`:
`total > 0 ? Math.round((completed / total) * 100) : 0`. -/
def completionRate (completedTournaments totalTournaments : ℕ) : ℤ :=
  if 0 < totalTournaments then
    jsRound ((completedTournaments : ℚ) / totalTournaments * 100)
  else 0

/-- `matches.disputeRate` of `loadAnalytics`:
`total > 0 ? Math.round((disputed / total) * 100) : 0`. -/
def disputeRate (disputedMatches totalMatches : ℕ) : ℤ :=
  if 0 < totalMatches then
    jsRound ((disputedMatches : ℚ) / totalMatches * 100)
  else 0

/-! ### Tournament header badge colour maps -/

/-- The `statusColors` object of `TournamentHeader`. -/
def statusColors : List (String × String) :=
  [("registration", "bg-blue-500"),
   ("ongoing", "bg-[#00FF88]"),
   ("paused", "bg-yellow-500"),
   ("completed", "bg-gray-500"),
   ("cancelled", "bg-red-500")]

/-- The `formatColors` object of `TournamentHeader`. -/
def formatColors : List (String × String) :=
  [("single_elimination", "bg-[#FFB800]"),
   ("double_elimination", "bg-purple-500")]

/-- The declared tournament lifecycle statuses. -/
def tournamentStatusValues : List String :=
  ["registration", "ongoing", "paused", "completed", "cancelled"]

/-- The declared tournament formats. -/
def tournamentFormatValues : List String :=
  ["single_elimination", "double_elimination"]

/-! ## Theorems -/

/-- Helper: past the admin gate, `createAnnouncement` issues exactly one
insert, whose payload is the row built from the input. -/
theorem createAnnouncement_writes_eq (u : User) (hadm : (u.role != "admin") = false)
    (input : CreateAnnouncementInput) (now : String)
    (allCount activeCount regCount : CountResp)
    (ins : Except QueryError AnnouncementInsert) :
    (createAnnouncement (some u) input now allCount activeCount regCount ins).2
      = [DbWrite.insertAnnouncement
          { title := input.title
            content := input.content
            type := input.type
            target := input.target
            status := if optStrTruthy input.scheduled_at then "scheduled" else "draft"
            sent_at := if optStrTruthy input.scheduled_at then none else some now
            scheduled_at := if optStrTruthy input.scheduled_at then input.scheduled_at else none
            recipients :=
              match input.target with
              | .all => allCount.count.getD 0
              | .active => activeCount.count.getD 0
              | .tournament => regCount.count.getD 0
              | .specific => 0
            opened := 0
            clicked := 0
            created_by := u.id }] := by
  cases ins <;> simp [createAnnouncement, hadm]

/-- C1: for an admin caller, `createAnnouncement` with a truthy (present,
non-empty) `scheduled_at` inserts a row with status `'scheduled'` and
`sent_at = null`; with no `scheduled_at` it inserts a row whose status is in
`'draft'`/`'sent'` (concretely `'draft'`) and `sent_at` set to the current
time. -/
theorem c1_create_announcement_status (u : User) (hrole : u.role = "admin")
    (input : CreateAnnouncementInput) (now : String)
    (allCount activeCount regCount : CountResp)
    (ins : Except QueryError AnnouncementInsert) :
    (optStrTruthy input.scheduled_at = true →
      ∃ row,
        (createAnnouncement (some u) input now allCount activeCount regCount ins).2
          = [DbWrite.insertAnnouncement row]
        ∧ row.status = "scheduled" ∧ row.sent_at = none) ∧
    (input.scheduled_at = none →
      ∃ row,
        (createAnnouncement (some u) input now allCount activeCount regCount ins).2
          = [DbWrite.insertAnnouncement row]
        ∧ (row.status = "draft" ∨ row.status = "sent") ∧ row.sent_at = some now) := by
  have hadm : (u.role != "admin") = false := by simp [hrole]
  constructor
  · intro h
    exact ⟨_, createAnnouncement_writes_eq u hadm input now allCount activeCount regCount ins,
           by simp [h], by simp [h]⟩
  · intro h
    have h' : optStrTruthy input.scheduled_at = false := by simp [h, optStrTruthy]
    exact ⟨_, createAnnouncement_writes_eq u hadm input now allCount activeCount regCount ins,
           Or.inl (by simp [h']), by simp [h']⟩

/-- Witness for C1 at a concrete admin caller, one scheduled and one
unscheduled input. -/
theorem c1_create_announcement_status_witness :
    (optStrTruthy (⟨"t", "c", AnnType.general, AnnTarget.all,
        some "2030-01-01T00:00:00Z"⟩ : CreateAnnouncementInput).scheduled_at = true →
      ∃ row,
        (createAnnouncement (some ⟨"u1", "admin"⟩)
            ⟨"t", "c", AnnType.general, AnnTarget.all, some "2030-01-01T00:00:00Z"⟩
            "2025-01-01T00:00:00Z" ⟨some 3, none⟩ ⟨none, none⟩ ⟨none, none⟩
            (.error ⟨"boom", "500"⟩)).2
          = [DbWrite.insertAnnouncement row]
        ∧ row.status = "scheduled" ∧ row.sent_at = none) ∧
    ((⟨"t", "c", AnnType.general, AnnTarget.all,
        some "2030-01-01T00:00:00Z"⟩ : CreateAnnouncementInput).scheduled_at = none →
      ∃ row,
        (createAnnouncement (some ⟨"u1", "admin"⟩)
            ⟨"t", "c", AnnType.general, AnnTarget.all, some "2030-01-01T00:00:00Z"⟩
            "2025-01-01T00:00:00Z" ⟨some 3, none⟩ ⟨none, none⟩ ⟨none, none⟩
            (.error ⟨"boom", "500"⟩)).2
          = [DbWrite.insertAnnouncement row]
        ∧ (row.status = "draft" ∨ row.status = "sent") ∧ row.sent_at = some "2025-01-01T00:00:00Z") :=
  c1_create_announcement_status ⟨"u1", "admin"⟩ rfl
    ⟨"t", "c", AnnType.general, AnnTarget.all, some "2030-01-01T00:00:00Z"⟩
    "2025-01-01T00:00:00Z" ⟨some 3, none⟩ ⟨none, none⟩ ⟨none, none⟩ (.error ⟨"boom", "500"⟩)

/-- C2 counterexample: `updateAnnouncementStats` is in the claimed list of
operations, yet it performs no authorization check at all — at a concrete
invocation (which holds for every caller, in particular a caller that is not
an authenticated admin), it issues its database update and returns
`error: null`, not `'Unauthorized'`. -/
theorem c2_unauthorized_counterexample :
    (updateAnnouncementStats "a1" ⟨some 5, some 2⟩ none).1.error = none ∧
    (updateAnnouncementStats "a1" ⟨some 5, some 2⟩ none).2
      = [DbWrite.updateAnnouncement "a1" (some 5) (some 2)] :=
  ⟨rfl, rfl⟩

/-- C2 amended: every listed operation except `updateAnnouncementStats`
returns `'Unauthorized'` and issues no database write when the caller is not
an authenticated admin; `updateAnnouncementStats` performs no authorization
check and issues its update for every caller. -/
theorem c2_amended_admin_gate :
    (∀ (α : Type) (user : Option User) (q : DbResp (List α)), isAdmin user = false →
      (getAnnouncements user q).1.error = some "Unauthorized"
        ∧ (getAnnouncements user q).2 = []) ∧
    (∀ (user : Option User) (input : CreateAnnouncementInput) (now : String)
        (c₁ c₂ c₃ : CountResp) (ins : Except QueryError AnnouncementInsert),
      isAdmin user = false →
      (createAnnouncement user input now c₁ c₂ c₃ ins).1.error = some "Unauthorized"
        ∧ (createAnnouncement user input now c₁ c₂ c₃ ins).2 = []) ∧
    (∀ (user : Option User) (q : DbResp (List AdminMessageRow)), isAdmin user = false →
      (getAdminMessages user q).1.error = some "Unauthorized"
        ∧ (getAdminMessages user q).2 = []) ∧
    (∀ (user : Option User) (mid : String) (q : Except QueryError AdminMessageRow),
      isAdmin user = false →
      (getAdminMessage user mid q).1.error = some "Unauthorized"
        ∧ (getAdminMessage user mid q).2 = []) ∧
    (∀ (user : Option User) (mid : String) (st : MessageStatus) (upd : Option QueryError),
      isAdmin user = false →
      (updateMessageStatus user mid st upd).1.error = some "Unauthorized"
        ∧ (updateMessageStatus user mid st upd).2 = []) ∧
    (∀ (user : Option User) (mid r : String) (fetch : Except QueryError OrigMessage),
      isAdmin user = false →
      (replyToMessage user mid r fetch).1.error = some "Unauthorized"
        ∧ (replyToMessage user mid r fetch).2 = []) ∧
    (∀ (user : Option User) (annC msgC unreadC repC : CountResp)
        (rd : DbResp (List RepliedTimesRow)) (ad : DbResp (List EngagementRow)),
      isAdmin user = false →
      (getCommunicationStats user annC msgC unreadC repC rd ad).1.error = some "Unauthorized"
        ∧ (getCommunicationStats user annC msgC unreadC repC rd ad).2 = []) ∧
    (∀ (user : Option User) (q : Except QueryError SettingsRow), isAdmin user = false →
      (getSystemSettings user q).1.error = some "Unauthorized"
        ∧ (getSystemSettings user q).2 = []) ∧
    (∀ (user : Option User) (settings : SettingsAny) (now : String)
        (up : Option QueryError), isAdmin user = false →
      (updateSystemSettings user settings now up).1.error = some "Unauthorized"
        ∧ (updateSystemSettings user settings now up).2 = []) ∧
    (∀ (user : Option User) (aC cC : CountResp) (probe : DbResp Unit) (rt : Nat),
      isAdmin user = false →
      (getSystemHealth user aC cC probe rt).1.error = some "Unauthorized"
        ∧ (getSystemHealth user aC cC probe rt).2 = []) ∧
    (∀ (user : Option User) (q : DbResp (List RoleRow)), isAdmin user = false →
      (getUserRoles user q).1.error = some "Unauthorized"
        ∧ (getUserRoles user q).2 = []) ∧
    (∀ (id : String) (stats : AnnouncementStats) (upd : Option QueryError),
      (updateAnnouncementStats id stats upd).2
        = [DbWrite.updateAnnouncement id stats.opened stats.clicked]) := by
  refine ⟨?_, ?_, ?_, ?_, ?_, ?_, ?_, ?_, ?_, ?_, ?_, ?_⟩
  · intro α user q hadm
    simp [getAnnouncements, hadm]
  · intro user input now c₁ c₂ c₃ ins hadm
    cases user with
    | none => exact ⟨rfl, rfl⟩
    | some u =>
      simp only [isAdmin] at hadm
      have hne : (u.role != "admin") = true := by simp [bne, hadm]
      simp [createAnnouncement, hne]
  · intro user q hadm
    simp [getAdminMessages, hadm]
  · intro user mid q hadm
    simp [getAdminMessage, hadm]
  · intro user mid st upd hadm
    simp [updateMessageStatus, hadm]
  · intro user mid r fetch hadm
    simp [replyToMessage, hadm]
  · intro user annC msgC unreadC repC rd ad hadm
    simp [getCommunicationStats, hadm]
  · intro user q hadm
    simp [getSystemSettings, hadm]
  · intro user settings now up hadm
    simp [updateSystemSettings, hadm]
  · intro user aC cC probe rt hadm
    simp [getSystemHealth, hadm]
  · intro user q hadm
    simp [getUserRoles, hadm]
  · intro id stats upd
    cases upd <;> rfl

/-- Witness for C2's amended statement at a caller that is not signed in,
plus the unchecked `updateAnnouncementStats` write. -/
theorem c2_amended_admin_gate_witness :
    ((@getAnnouncements Nat none ⟨some [1], none⟩).1.error = some "Unauthorized"
      ∧ (@getAnnouncements Nat none ⟨some [1], none⟩).2 = []) ∧
    ((getSystemHealth none ⟨some 1, none⟩ ⟨some 2, none⟩ ⟨some (), none⟩ 10).1.error
        = some "Unauthorized"
      ∧ (getSystemHealth none ⟨some 1, none⟩ ⟨some 2, none⟩ ⟨some (), none⟩ 10).2 = []) ∧
    (updateAnnouncementStats "a1" ⟨some 1, none⟩ none).2
      = [DbWrite.updateAnnouncement "a1" (some 1) none] :=
  ⟨c2_amended_admin_gate.1 Nat none ⟨some [1], none⟩ rfl,
   c2_amended_admin_gate.2.2.2.2.2.2.2.2.2.1 none ⟨some 1, none⟩ ⟨some 2, none⟩
     ⟨some (), none⟩ 10 rfl,
   c2_amended_admin_gate.2.2.2.2.2.2.2.2.2.2.2 "a1" ⟨some 1, none⟩ none⟩

/-- C3 counterexample: `getSystemSettings` is an exported server action whose
database query can fail (error code `'PGRST116'`, message here `'db down'`)
while the action still returns `error: null` — with the default settings as
data — instead of the query's error message. -/
theorem c3_error_convention_counterexample :
    (getSystemSettings (some ⟨"a1", "admin"⟩)
        (.error ⟨"db down", "PGRST116"⟩)).1.error = none ∧
    (getSystemSettings (some ⟨"a1", "admin"⟩)
        (.error ⟨"db down", "PGRST116"⟩)).1.data = some defaultSettings :=
  ⟨rfl, rfl⟩

/-- C3 amended: each action surfaces the error of its primary query as the
returned error string (with `data: null` where a data field exists) and
returns `error: null` when that query succeeds, except: `createAnnouncement`
ignores failures of its recipient-count queries; `replyToMessage` maps any
fetch failure to the fixed string `'Message not found'` and never inspects
its update's outcome; `getCommunicationStats` and `getSystemHealth` ignore
all their query errors and always return `error: null` once authorized; and
`getSystemSettings` treats a failure with code `'PGRST116'` as "no rows",
returning the defaults with `error: null`. -/
theorem c3_amended_error_convention :
    (∀ (α : Type) (u : User), u.role = "admin" →
      (∀ (d : Option (List α)) (e : QueryError),
        (getAnnouncements (some u) (⟨d, some e⟩ : DbResp (List α))).1.error = some e.message ∧
        (getAnnouncements (some u) (⟨d, some e⟩ : DbResp (List α))).1.data = none) ∧
      (∀ d : Option (List α),
        (getAnnouncements (some u) (⟨d, none⟩ : DbResp (List α))).1.error = none)) ∧
    (∀ (u : User), u.role = "admin" →
      ∀ (input : CreateAnnouncementInput) (now : String) (c₁ c₂ c₃ : CountResp),
      (∀ e, (createAnnouncement (some u) input now c₁ c₂ c₃ (.error e)).1.error
          = some e.message) ∧
      (∀ r, (createAnnouncement (some u) input now c₁ c₂ c₃ (.ok r)).1.error = none)) ∧
    (∀ (id : String) (stats : AnnouncementStats),
      (∀ e, (updateAnnouncementStats id stats (some e)).1.error = some e.message) ∧
      (updateAnnouncementStats id stats none).1.error = none) ∧
    (∀ (u : User), u.role = "admin" →
      (∀ (d : Option (List AdminMessageRow)) (e : QueryError),
        (getAdminMessages (some u) ⟨d, some e⟩).1.error = some e.message ∧
        (getAdminMessages (some u) ⟨d, some e⟩).1.data = none) ∧
      (∀ d, (getAdminMessages (some u) ⟨d, none⟩).1.error = none)) ∧
    (∀ (u : User), u.role = "admin" → ∀ mid : String,
      (∀ e, (getAdminMessage (some u) mid (.error e)).1.error = some e.message ∧
            (getAdminMessage (some u) mid (.error e)).1.data = none) ∧
      (∀ d, (getAdminMessage (some u) mid (.ok d)).1.error = none)) ∧
    (∀ (u : User), u.role = "admin" → ∀ (mid : String) (st : MessageStatus),
      (∀ e, (updateMessageStatus (some u) mid st (some e)).1.error = some e.message) ∧
      (updateMessageStatus (some u) mid st none).1.error = none) ∧
    (∀ (u : User), u.role = "admin" → ∀ mid r : String,
      (∀ e, (replyToMessage (some u) mid r (.error e)).1.error
          = some "Message not found") ∧
      (∀ m, (replyToMessage (some u) mid r (.ok m)).1.error = none)) ∧
    (∀ (u : User), u.role = "admin" →
      ∀ (annC msgC unreadC repC : CountResp) (rd : DbResp (List RepliedTimesRow))
        (ad : DbResp (List EngagementRow)),
      (getCommunicationStats (some u) annC msgC unreadC repC rd ad).1.error = none) ∧
    (∀ (α : Type) (u : User) (input : SendMessageInput),
      (∀ e, (@sendMessageToAdmin α (some u) input (.error e)).1.error = some e.message) ∧
      (∀ r, (@sendMessageToAdmin α (some u) input (.ok r)).1.error = none)) ∧
    (∀ (u : User), u.role = "admin" →
      (∀ e : QueryError, e.code ≠ "PGRST116" →
        (getSystemSettings (some u) (.error e)).1.error = some e.message ∧
        (getSystemSettings (some u) (.error e)).1.data = none) ∧
      (∀ e : QueryError, e.code = "PGRST116" →
        (getSystemSettings (some u) (.error e)).1.error = none) ∧
      (∀ d, (getSystemSettings (some u) (.ok d)).1.error = none)) ∧
    (∀ (u : User), u.role = "admin" → ∀ (settings : SettingsAny) (now : String),
      (∀ e, (updateSystemSettings (some u) settings now (some e)).1.error = some e.message) ∧
      (updateSystemSettings (some u) settings now none).1.error = none) ∧
    (∀ (u : User), u.role = "admin" →
      ∀ (aC cC : CountResp) (probe : DbResp Unit) (rt : Nat),
      (getSystemHealth (some u) aC cC probe rt).1.error = none) ∧
    (∀ (u : User), u.role = "admin" →
      (∀ (d : Option (List RoleRow)) (e : QueryError),
        (getUserRoles (some u) ⟨d, some e⟩).1.error = some e.message ∧
        (getUserRoles (some u) ⟨d, some e⟩).1.data = none) ∧
      (∀ d, (getUserRoles (some u) ⟨d, none⟩).1.error = none)) := by
  refine ⟨?_, ?_, ?_, ?_, ?_, ?_, ?_, ?_, ?_, ?_, ?_, ?_, ?_⟩
  · intro α u hrole
    refine ⟨fun d e => ⟨?_, ?_⟩, fun d => ?_⟩ <;> simp [getAnnouncements, isAdmin, hrole]
  · intro u hrole input now c₁ c₂ c₃
    refine ⟨fun e => ?_, fun r => ?_⟩ <;> simp [createAnnouncement, hrole]
  · intro id stats
    exact ⟨fun e => rfl, rfl⟩
  · intro u hrole
    refine ⟨fun d e => ⟨?_, ?_⟩, fun d => ?_⟩ <;> simp [getAdminMessages, isAdmin, hrole]
  · intro u hrole mid
    refine ⟨fun e => ⟨?_, ?_⟩, fun d => ?_⟩ <;> simp [getAdminMessage, isAdmin, hrole]
  · intro u hrole mid st
    refine ⟨fun e => ?_, ?_⟩ <;> simp [updateMessageStatus, isAdmin, hrole]
  · intro u hrole mid r
    refine ⟨fun e => ?_, fun m => ?_⟩ <;> simp [replyToMessage, isAdmin, hrole]
  · intro u hrole annC msgC unreadC repC rd ad
    simp [getCommunicationStats, isAdmin, hrole]
  · intro α u input
    exact ⟨fun e => rfl, fun r => rfl⟩
  · intro u hrole
    refine ⟨fun e he => ⟨?_, ?_⟩, fun e he => ?_, fun d => ?_⟩
    · simp [getSystemSettings, isAdmin, hrole, bne_iff_ne, he]
    · simp [getSystemSettings, isAdmin, hrole, bne_iff_ne, he]
    · simp [getSystemSettings, isAdmin, hrole, bne_iff_ne, he]
    · simp [getSystemSettings, isAdmin, hrole]
  · intro u hrole settings now
    refine ⟨fun e => ?_, ?_⟩ <;> simp [updateSystemSettings, isAdmin, hrole]
  · intro u hrole aC cC probe rt
    simp [getSystemHealth, isAdmin, hrole]
  · intro u hrole
    refine ⟨fun d e => ⟨?_, ?_⟩, fun d => ?_⟩ <;> simp [getUserRoles, isAdmin, hrole]

/-- Witness for C3's amended statement at a concrete admin caller, one failed
and one successful query per representative action. -/
theorem c3_amended_error_convention_witness :
    ((getAnnouncements (some ⟨"a1", "admin"⟩)
        (⟨none, some ⟨"boom", "500"⟩⟩ : DbResp (List Nat))).1.error = some "boom" ∧
      (getAnnouncements (some ⟨"a1", "admin"⟩)
        (⟨none, some ⟨"boom", "500"⟩⟩ : DbResp (List Nat))).1.data = none) ∧
    (getSystemSettings (some ⟨"a1", "admin"⟩)
        (.error ⟨"boom", "500"⟩)).1.error = some "boom" ∧
    (getCommunicationStats (some ⟨"a1", "admin"⟩) ⟨none, some ⟨"x", "500"⟩⟩
        ⟨none, none⟩ ⟨none, none⟩ ⟨none, none⟩ ⟨none, none⟩ ⟨none, none⟩).1.error = none :=
  ⟨(c3_amended_error_convention.1 Nat ⟨"a1", "admin"⟩ rfl).1 none ⟨"boom", "500"⟩,
   ((c3_amended_error_convention.2.2.2.2.2.2.2.2.2.1 ⟨"a1", "admin"⟩ rfl).1
      ⟨"boom", "500"⟩ (by decide)).1,
   c3_amended_error_convention.2.2.2.2.2.2.2.1 ⟨"a1", "admin"⟩ rfl
      ⟨none, some ⟨"x", "500"⟩⟩ ⟨none, none⟩ ⟨none, none⟩ ⟨none, none⟩
      ⟨none, none⟩ ⟨none, none⟩⟩

/-- C7: every modelled server action is stateless and deterministic — two
invocations with the same caller, the same query responses and the same
clock reading return identical results and issue identical writes; no
result depends on state shared across requests (every action is a pure
function of its inputs). -/
theorem c7_actions_deterministic :
    (∀ (α : Type) (u₁ u₂ : Option User) (q₁ q₂ : DbResp (List α)),
        u₁ = u₂ → q₁ = q₂ → getAnnouncements u₁ q₁ = getAnnouncements u₂ q₂) ∧
    (∀ (u₁ u₂ : Option User) (i₁ i₂ : CreateAnnouncementInput) (n₁ n₂ : String)
        (a₁ a₂ b₁ b₂ c₁ c₂ : CountResp) (x₁ x₂ : Except QueryError AnnouncementInsert),
        u₁ = u₂ → i₁ = i₂ → n₁ = n₂ → a₁ = a₂ → b₁ = b₂ → c₁ = c₂ → x₁ = x₂ →
        createAnnouncement u₁ i₁ n₁ a₁ b₁ c₁ x₁ = createAnnouncement u₂ i₂ n₂ a₂ b₂ c₂ x₂) ∧
    (∀ (i₁ i₂ : String) (s₁ s₂ : AnnouncementStats) (e₁ e₂ : Option QueryError),
        i₁ = i₂ → s₁ = s₂ → e₁ = e₂ →
        updateAnnouncementStats i₁ s₁ e₁ = updateAnnouncementStats i₂ s₂ e₂) ∧
    (∀ (u₁ u₂ : Option User) (q₁ q₂ : DbResp (List AdminMessageRow)),
        u₁ = u₂ → q₁ = q₂ → getAdminMessages u₁ q₁ = getAdminMessages u₂ q₂) ∧
    (∀ (u₁ u₂ : Option User) (m₁ m₂ : String) (q₁ q₂ : Except QueryError AdminMessageRow),
        u₁ = u₂ → m₁ = m₂ → q₁ = q₂ → getAdminMessage u₁ m₁ q₁ = getAdminMessage u₂ m₂ q₂) ∧
    (∀ (u₁ u₂ : Option User) (m₁ m₂ : String) (s₁ s₂ : MessageStatus)
        (e₁ e₂ : Option QueryError), u₁ = u₂ → m₁ = m₂ → s₁ = s₂ → e₁ = e₂ →
        updateMessageStatus u₁ m₁ s₁ e₁ = updateMessageStatus u₂ m₂ s₂ e₂) ∧
    (∀ (u₁ u₂ : Option User) (m₁ m₂ r₁ r₂ : String) (f₁ f₂ : Except QueryError OrigMessage),
        u₁ = u₂ → m₁ = m₂ → r₁ = r₂ → f₁ = f₂ →
        replyToMessage u₁ m₁ r₁ f₁ = replyToMessage u₂ m₂ r₂ f₂) ∧
    (∀ (u₁ u₂ : Option User) (a₁ a₂ b₁ b₂ c₁ c₂ d₁ d₂ : CountResp)
        (x₁ x₂ : DbResp (List RepliedTimesRow)) (y₁ y₂ : DbResp (List EngagementRow)),
        u₁ = u₂ → a₁ = a₂ → b₁ = b₂ → c₁ = c₂ → d₁ = d₂ → x₁ = x₂ → y₁ = y₂ →
        getCommunicationStats u₁ a₁ b₁ c₁ d₁ x₁ y₁
          = getCommunicationStats u₂ a₂ b₂ c₂ d₂ x₂ y₂) ∧
    (∀ (α : Type) (u₁ u₂ : Option User) (i₁ i₂ : SendMessageInput)
        (x₁ x₂ : Except QueryError α), u₁ = u₂ → i₁ = i₂ → x₁ = x₂ →
        sendMessageToAdmin u₁ i₁ x₁ = sendMessageToAdmin u₂ i₂ x₂) ∧
    (∀ (u₁ u₂ : Option User) (q₁ q₂ : Except QueryError SettingsRow),
        u₁ = u₂ → q₁ = q₂ → getSystemSettings u₁ q₁ = getSystemSettings u₂ q₂) ∧
    (∀ (u₁ u₂ : Option User) (s₁ s₂ : SettingsAny) (n₁ n₂ : String)
        (e₁ e₂ : Option QueryError), u₁ = u₂ → s₁ = s₂ → n₁ = n₂ → e₁ = e₂ →
        updateSystemSettings u₁ s₁ n₁ e₁ = updateSystemSettings u₂ s₂ n₂ e₂) ∧
    (∀ (u₁ u₂ : Option User) (a₁ a₂ c₁ c₂ : CountResp) (p₁ p₂ : DbResp Unit)
        (r₁ r₂ : Nat), u₁ = u₂ → a₁ = a₂ → c₁ = c₂ → p₁ = p₂ → r₁ = r₂ →
        getSystemHealth u₁ a₁ c₁ p₁ r₁ = getSystemHealth u₂ a₂ c₂ p₂ r₂) ∧
    (∀ (u₁ u₂ : Option User) (q₁ q₂ : DbResp (List RoleRow)),
        u₁ = u₂ → q₁ = q₂ → getUserRoles u₁ q₁ = getUserRoles u₂ q₂) := by
  refine ⟨?_, ?_, ?_, ?_, ?_, ?_, ?_, ?_, ?_, ?_, ?_, ?_, ?_⟩ <;>
    intros <;> subst_vars <;> rfl

/-- Witness for C7 at concrete equal invocations. -/
theorem c7_actions_deterministic_witness :
    @getAnnouncements Nat (some ⟨"u1", "admin"⟩) ⟨some [1, 2], none⟩
        = @getAnnouncements Nat (some ⟨"u1", "admin"⟩) ⟨some [1, 2], none⟩ ∧
    getSystemHealth (some ⟨"u1", "admin"⟩) ⟨some 1, none⟩ ⟨some 2, none⟩ ⟨some (), none⟩ 50
        = getSystemHealth (some ⟨"u1", "admin"⟩) ⟨some 1, none⟩ ⟨some 2, none⟩ ⟨some (), none⟩ 50 :=
  ⟨c7_actions_deterministic.1 Nat _ _ _ _ rfl rfl,
   c7_actions_deterministic.2.2.2.2.2.2.2.2.2.2.2.1 _ _ _ _ _ _ _ _ _ _ rfl rfl rfl rfl rfl⟩

/-- C8: the displayed growth percentages are data-independent constants:
`revenue.growth` is 25 for any positive monthly revenue, `players.growth` is
43 for any positive count of new players, and both are 0 at zero. -/
theorem c8_growth_constants :
    (∀ m : ℚ, 0 < m → revenueGrowth m = 25) ∧ revenueGrowth 0 = 0 ∧
    (∀ n : ℕ, 0 < n → playersGrowth n = 43) ∧ playersGrowth 0 = 0 := by
  refine ⟨?_, by simp [revenueGrowth], ?_, by simp [playersGrowth]⟩
  · intro m hm
    have hm0 : m ≠ 0 := ne_of_gt hm
    have harg : (m - m * (8/10)) / (m * (8/10)) * 100 = (25 : ℚ) := by
      field_simp
      ring
    rw [revenueGrowth, if_pos hm, harg, jsRound]
    apply Int.floor_eq_iff.mpr
    constructor <;> norm_num
  · intro n hn
    have hn0 : (n : ℚ) ≠ 0 := Nat.cast_ne_zero.mpr (by omega)
    have harg : ((n : ℚ) - n * (7/10)) / (n * (7/10)) * 100 = (300 : ℚ) / 7 := by
      field_simp
      ring
    rw [playersGrowth, if_pos hn, harg, jsRound]
    apply Int.floor_eq_iff.mpr
    constructor <;> norm_num

/-- Witness for C8 at monthly revenue 5000 and 2 new players. -/
theorem c8_growth_constants_witness :
    revenueGrowth 5000 = 25 ∧ playersGrowth 2 = 43 :=
  ⟨c8_growth_constants.1 5000 (by norm_num),
   c8_growth_constants.2.2.1 2 (by norm_num)⟩

/-- C9: `replyToMessage` never stores the reply text — results and writes are
identical for any two reply strings — and for an admin caller a failed fetch
of the original message yields the error `'Message not found'` with no
writes, while a successful fetch yields the single status-`'replied'` update
write. -/
theorem c9_reply_ignores_text :
    (∀ (user : Option User) (mid r₁ r₂ : String) (fetch : Except QueryError OrigMessage),
        replyToMessage user mid r₁ fetch = replyToMessage user mid r₂ fetch) ∧
    (∀ (u : User), u.role = "admin" → ∀ (mid r : String) (e : QueryError),
        replyToMessage (some u) mid r (.error e)
          = ({ error := some "Message not found" }, [])) ∧
    (∀ (u : User), u.role = "admin" → ∀ (mid r : String) (m : OrigMessage),
        replyToMessage (some u) mid r (.ok m)
          = ({ error := none },
             [DbWrite.updateAdminMessageStatus mid "replied"])) := by
  refine ⟨fun user mid r₁ r₂ fetch => rfl, ?_, ?_⟩
  · intro u hrole mid r e
    simp [replyToMessage, isAdmin, hrole]
  · intro u hrole mid r m
    simp [replyToMessage, isAdmin, hrole]

/-- Witness for C9 at a concrete admin caller and message. -/
theorem c9_reply_ignores_text_witness :
    replyToMessage (some ⟨"a1", "admin"⟩) "m1" "thanks" (.error ⟨"no rows", "PGRST116"⟩)
        = ({ error := some "Message not found" }, []) ∧
    replyToMessage (some ⟨"a1", "admin"⟩) "m1" "thanks" (.ok ⟨"u2", "help"⟩)
        = ({ error := none }, [DbWrite.updateAdminMessageStatus "m1" "replied"]) :=
  ⟨c9_reply_ignores_text.2.1 ⟨"a1", "admin"⟩ rfl "m1" "thanks" ⟨"no rows", "PGRST116"⟩,
   c9_reply_ignores_text.2.2 ⟨"a1", "admin"⟩ rfl "m1" "thanks" ⟨"u2", "help"⟩⟩

/-- Helper: `statusColors` lookup as a decision chain over the key. -/
theorem statusColors_lookup_eq (s : String) :
    statusColors.lookup s =
      if s = "registration" then some "bg-blue-500"
      else if s = "ongoing" then some "bg-[#00FF88]"
      else if s = "paused" then some "bg-yellow-500"
      else if s = "completed" then some "bg-gray-500"
      else if s = "cancelled" then some "bg-red-500"
      else none := by
  rcases eq_or_ne s "registration" with rfl | h1
  · rfl
  rcases eq_or_ne s "ongoing" with rfl | h2
  · rfl
  rcases eq_or_ne s "paused" with rfl | h3
  · rfl
  rcases eq_or_ne s "completed" with rfl | h4
  · rfl
  rcases eq_or_ne s "cancelled" with rfl | h5
  · rfl
  simp [statusColors, List.lookup, h1, h2, h3, h4, h5,
    beq_eq_false_iff_ne.mpr h1, beq_eq_false_iff_ne.mpr h2, beq_eq_false_iff_ne.mpr h3,
    beq_eq_false_iff_ne.mpr h4, beq_eq_false_iff_ne.mpr h5]

/-- Helper: `formatColors` lookup as a decision chain over the key. -/
theorem formatColors_lookup_eq (f : String) :
    formatColors.lookup f =
      if f = "single_elimination" then some "bg-[#FFB800]"
      else if f = "double_elimination" then some "bg-purple-500"
      else none := by
  rcases eq_or_ne f "single_elimination" with rfl | h1
  · rfl
  rcases eq_or_ne f "double_elimination" with rfl | h2
  · rfl
  simp [formatColors, List.lookup, h1, h2,
    beq_eq_false_iff_ne.mpr h1, beq_eq_false_iff_ne.mpr h2]

/-- C6: the `TournamentHeader` badge maps are total over exactly the declared
enum values — `statusColors` is defined precisely on the five lifecycle
statuses and `formatColors` precisely on the two formats — and distinct
statuses (and distinct formats) map to distinct colour classes. -/
theorem c6_badge_maps_total_injective :
    (∀ s, s ∈ tournamentStatusValues → (statusColors.lookup s).isSome = true) ∧
    (∀ s, (statusColors.lookup s).isSome = true → s ∈ tournamentStatusValues) ∧
    (∀ f, f ∈ tournamentFormatValues → (formatColors.lookup f).isSome = true) ∧
    (∀ f, (formatColors.lookup f).isSome = true → f ∈ tournamentFormatValues) ∧
    (∀ s₁ s₂ c₁ c₂, statusColors.lookup s₁ = some c₁ → statusColors.lookup s₂ = some c₂ →
        s₁ ≠ s₂ → c₁ ≠ c₂) ∧
    (∀ f₁ f₂ c₁ c₂, formatColors.lookup f₁ = some c₁ → formatColors.lookup f₂ = some c₂ →
        f₁ ≠ f₂ → c₁ ≠ c₂) := by
  refine ⟨?_, ?_, ?_, ?_, ?_, ?_⟩
  · intro s hs
    simp only [tournamentStatusValues, List.mem_cons, List.not_mem_nil, or_false] at hs
    rcases hs with rfl | rfl | rfl | rfl | rfl <;> rfl
  · intro s h
    rw [statusColors_lookup_eq] at h
    simp only [tournamentStatusValues, List.mem_cons, List.not_mem_nil, or_false]
    split_ifs at h with h1 h2 h3 h4 h5 <;> simp_all
  · intro f hf
    simp only [tournamentFormatValues, List.mem_cons, List.not_mem_nil, or_false] at hf
    rcases hf with rfl | rfl <;> rfl
  · intro f h
    rw [formatColors_lookup_eq] at h
    simp only [tournamentFormatValues, List.mem_cons, List.not_mem_nil, or_false]
    split_ifs at h with h1 h2 <;> simp_all
  · intro s₁ s₂ c₁ c₂ h₁ h₂ hne
    rw [statusColors_lookup_eq] at h₁ h₂
    split_ifs at h₁ <;> split_ifs at h₂ <;> (try simp_all) <;>
      exact fun hc => absurd (h₁.trans (hc.trans h₂.symm)) (by decide)
  · intro f₁ f₂ c₁ c₂ h₁ h₂ hne
    rw [formatColors_lookup_eq] at h₁ h₂
    split_ifs at h₁ <;> split_ifs at h₂ <;> (try simp_all) <;>
      exact fun hc => absurd (h₁.trans (hc.trans h₂.symm)) (by decide)

/-- Witness for C6 at the `ongoing` status and `single_elimination` format. -/
theorem c6_badge_maps_witness :
    (statusColors.lookup "ongoing").isSome = true ∧
    (formatColors.lookup "single_elimination").isSome = true ∧
    "ongoing" ∈ tournamentStatusValues := by
  have h1 := c6_badge_maps_total_injective.1 "ongoing" (by decide)
  have h2 := c6_badge_maps_total_injective.2.2.1 "single_elimination" (by decide)
  exact ⟨h1, h2, by decide⟩

/-- C4: every `admin_messages` write issued by `updateMessageStatus`,
`sendMessageToAdmin` or `replyToMessage` keeps the message status inside the
`unread`/`read`/`replied` enumeration: `updateMessageStatus` only writes a
member of its status union, `sendMessageToAdmin` always inserts status
`'unread'`, and `replyToMessage` only ever sets status `'replied'`. -/
theorem c4_message_status_enum :
    (∀ (user : Option User) (mid : String) (st : MessageStatus) (upd : Option QueryError),
        ∀ w ∈ (updateMessageStatus user mid st upd).2,
          ∃ i s, w = DbWrite.updateAdminMessageStatus i s ∧
            (s = "unread" ∨ s = "read" ∨ s = "replied")) ∧
    (∀ (α : Type) (user : Option User) (input : SendMessageInput)
        (ins : Except QueryError α),
        ∀ w ∈ (sendMessageToAdmin user input ins).2,
          ∃ row, w = DbWrite.insertAdminMessage row ∧ row.status = "unread") ∧
    (∀ (user : Option User) (mid reply : String) (fetch : Except QueryError OrigMessage),
        ∀ w ∈ (replyToMessage user mid reply fetch).2,
          w = DbWrite.updateAdminMessageStatus mid "replied") := by
  refine ⟨?_, ?_, ?_⟩
  · intro user mid st upd w hw
    rcases h : isAdmin user with _ | _
    · simp [updateMessageStatus, h] at hw
    · cases upd <;> simp [updateMessageStatus, h] at hw <;>
        exact ⟨mid, st.toStr, hw, by cases st <;> simp [MessageStatus.toStr]⟩
  · intro α user input ins w hw
    cases user with
    | none => simp [sendMessageToAdmin] at hw
    | some u =>
      cases ins <;> simp [sendMessageToAdmin] at hw <;> exact ⟨_, hw, rfl⟩
  · intro user mid reply fetch w hw
    rcases h : isAdmin user with _ | _
    · simp [replyToMessage, h] at hw
    · cases fetch with
      | error e => simp [replyToMessage, h] at hw
      | ok m => simpa [replyToMessage, h] using hw

/-- Witness for C4 at concrete writes of all three operations. -/
theorem c4_message_status_enum_witness :
    (∃ i s, DbWrite.updateAdminMessageStatus "m1" "read"
        = DbWrite.updateAdminMessageStatus i s ∧
        (s = "unread" ∨ s = "read" ∨ s = "replied")) ∧
    (∃ row, DbWrite.insertAdminMessage ⟨"u2", "subj", "body", "medium", "unread"⟩
        = DbWrite.insertAdminMessage row ∧ row.status = "unread") ∧
    DbWrite.updateAdminMessageStatus "m1" "replied"
        = DbWrite.updateAdminMessageStatus "m1" "replied" :=
  ⟨c4_message_status_enum.1 (some ⟨"a1", "admin"⟩) "m1" .read none
      (DbWrite.updateAdminMessageStatus "m1" "read") (by decide),
   c4_message_status_enum.2.1 AdminMessageInsert (some ⟨"u2", "player"⟩)
      ⟨"subj", "body", none⟩ (.error ⟨"boom", "500"⟩)
      (DbWrite.insertAdminMessage ⟨"u2", "subj", "body", "medium", "unread"⟩) (by decide),
   c4_message_status_enum.2.2 (some ⟨"a1", "admin"⟩) "m1" "thanks" (.ok ⟨"u2", "subj"⟩)
      (DbWrite.updateAdminMessageStatus "m1" "replied") (by decide)⟩

/-- Helper: past the admin gate, the statistics record
`getCommunicationStats` returns. -/
theorem getCommunicationStats_data_eq (u : User) (hadm : isAdmin (some u) = true)
    (annC msgC unreadC repC : CountResp) (rd : DbResp (List RepliedTimesRow))
    (ad : DbResp (List EngagementRow)) :
    (getCommunicationStats (some u) annC msgC unreadC repC rd ad).1.data
      = some
        { totalAnnouncements := annC.count.getD 0
          totalMessages := msgC.count.getD 0
          unreadMessages := unreadC.count.getD 0
          responseRate :=
            match msgC.count with
            | some t => if 0 < t then jsRound ((repC.count.getD 0 : ℚ) / t * 100) else 0
            | none => 0
          avgResponseTime :=
            match rd.data with
            | some rows =>
              if 0 < rows.length then
                (jsRound ((rows.foldl
                    (fun sum msg =>
                      sum + ((msg.updated_at.getD msg.created_at) - msg.created_at)
                        / (1000 * 60 * 60)) 0) / rows.length * 10) : ℚ) / 10
              else 0
            | none => 0
          engagementRate :=
            match ad.data with
            | some announcements =>
              if 0 < announcements.length then
                if 0 < (announcements.foldl (fun sum a => sum + a.recipients.getD 0) 0 : ℕ) then
                  jsRound
                    (((announcements.foldl (fun sum a => sum + a.opened.getD 0) 0 : ℕ) : ℚ)
                      / ((announcements.foldl (fun sum a => sum + a.recipients.getD 0) 0 : ℕ) : ℚ)
                      * 100)
                else 0
              else 0
            | none => 0 } := by
  simp [getCommunicationStats, hadm]

/-- C5: each of the four percentage aggregations — `completionRate` and
`disputeRate` in the analytics dashboard, `responseRate` and
`engagementRate` in `getCommunicationStats` — equals
`Math.round(100 * numerator / denominator)` whenever its denominator is
positive and equals 0 whenever its denominator is zero (or absent). -/
theorem c5_percentage_aggregations :
    (∀ c t : ℕ,
      (0 < t → completionRate c t = jsRound (100 * (c : ℚ) / (t : ℚ))) ∧
      completionRate c 0 = 0) ∧
    (∀ dm tm : ℕ,
      (0 < tm → disputeRate dm tm = jsRound (100 * (dm : ℚ) / (tm : ℚ))) ∧
      disputeRate dm 0 = 0) ∧
    (∀ (u : User), u.role = "admin" →
      ∀ (annC unreadC repC : CountResp) (me : Option QueryError)
        (rd : DbResp (List RepliedTimesRow)) (ad : DbResp (List EngagementRow)),
      (∀ t : ℕ, 0 < t →
        ∃ stats,
          (getCommunicationStats (some u) annC ⟨some t, me⟩ unreadC repC rd ad).1.data
            = some stats ∧
          stats.responseRate = jsRound (100 * (repC.count.getD 0 : ℚ) / (t : ℚ))) ∧
      (∃ stats,
        (getCommunicationStats (some u) annC ⟨some 0, me⟩ unreadC repC rd ad).1.data
          = some stats ∧ stats.responseRate = 0) ∧
      (∃ stats,
        (getCommunicationStats (some u) annC ⟨none, me⟩ unreadC repC rd ad).1.data
          = some stats ∧ stats.responseRate = 0)) ∧
    (∀ (u : User), u.role = "admin" →
      ∀ (annC msgC unreadC repC : CountResp) (rd : DbResp (List RepliedTimesRow))
        (de : Option QueryError) (anns : List EngagementRow),
      (0 < (anns.foldl (fun sum a => sum + a.recipients.getD 0) 0 : ℕ) →
        ∃ stats,
          (getCommunicationStats (some u) annC msgC unreadC repC rd
              ⟨some anns, de⟩).1.data = some stats ∧
          stats.engagementRate
            = jsRound (100 * ((anns.foldl (fun sum a => sum + a.opened.getD 0) 0 : ℕ) : ℚ)
                / ((anns.foldl (fun sum a => sum + a.recipients.getD 0) 0 : ℕ) : ℚ))) ∧
      ((anns.foldl (fun sum a => sum + a.recipients.getD 0) 0 : ℕ) = 0 →
        ∃ stats,
          (getCommunicationStats (some u) annC msgC unreadC repC rd
              ⟨some anns, de⟩).1.data = some stats ∧ stats.engagementRate = 0) ∧
      (∃ stats,
        (getCommunicationStats (some u) annC msgC unreadC repC rd
            ⟨none, de⟩).1.data = some stats ∧ stats.engagementRate = 0)) := by
  have hq : ∀ x y : ℚ, x / y * 100 = 100 * x / y := fun x y => by ring
  refine ⟨?_, ?_, ?_, ?_⟩
  · intro c t
    refine ⟨fun ht => ?_, rfl⟩
    rw [completionRate, if_pos ht]
    congr 1
    ring
  · intro dm tm
    refine ⟨fun ht => ?_, rfl⟩
    rw [disputeRate, if_pos ht]
    congr 1
    ring
  · intro u hrole annC unreadC repC me rd ad
    have hadm : isAdmin (some u) = true := by simp [isAdmin, hrole]
    refine ⟨fun t ht => ?_, ?_, ?_⟩
    · refine ⟨_, getCommunicationStats_data_eq u hadm annC ⟨some t, me⟩ unreadC repC rd ad, ?_⟩
      show (if 0 < t then jsRound ((repC.count.getD 0 : ℚ) / t * 100) else 0) = _
      rw [if_pos ht, hq]
    · exact ⟨_, getCommunicationStats_data_eq u hadm annC ⟨some 0, me⟩ unreadC repC rd ad, rfl⟩
    · exact ⟨_, getCommunicationStats_data_eq u hadm annC ⟨none, me⟩ unreadC repC rd ad, rfl⟩
  · intro u hrole annC msgC unreadC repC rd de anns
    have hadm : isAdmin (some u) = true := by simp [isAdmin, hrole]
    refine ⟨fun htr => ?_, fun htr => ?_, ?_⟩
    · refine ⟨_, getCommunicationStats_data_eq u hadm annC msgC unreadC repC rd
        ⟨some anns, de⟩, ?_⟩
      have hlen : 0 < anns.length := by
        rcases anns with _ | ⟨a, rest⟩
        · simp [List.foldl] at htr
        · simp
      show (if 0 < anns.length then _ else _) = _
      rw [if_pos hlen, if_pos htr, hq]
    · refine ⟨_, getCommunicationStats_data_eq u hadm annC msgC unreadC repC rd
        ⟨some anns, de⟩, ?_⟩
      show (if 0 < anns.length then _ else _) = _
      rcases Nat.eq_zero_or_pos anns.length with hlen | hlen
      · rw [if_neg (by omega)]
      · rw [if_pos hlen, if_neg (by omega)]
    · exact ⟨_, getCommunicationStats_data_eq u hadm annC msgC unreadC repC rd
        ⟨none, de⟩, rfl⟩

/-- Witness for C5 at concrete aggregation inputs. -/
theorem c5_percentage_aggregations_witness :
    completionRate 3 4 = jsRound (100 * ((3 : ℕ) : ℚ) / ((4 : ℕ) : ℚ)) ∧
    disputeRate 1 8 = jsRound (100 * ((1 : ℕ) : ℚ) / ((8 : ℕ) : ℚ)) ∧
    ∃ stats,
      (getCommunicationStats (some ⟨"a1", "admin"⟩) ⟨none, none⟩ ⟨some 4, none⟩
          ⟨none, none⟩ ⟨some 2, none⟩ ⟨none, none⟩ ⟨none, none⟩).1.data = some stats ∧
      stats.responseRate
        = jsRound (100 * (((⟨some 2, none⟩ : CountResp).count.getD 0 : ℕ) : ℚ)
            / ((4 : ℕ) : ℚ)) :=
  ⟨(c5_percentage_aggregations.1 3 4).1 (by decide),
   (c5_percentage_aggregations.2.1 1 8).1 (by decide),
   (c5_percentage_aggregations.2.2.1 ⟨"a1", "admin"⟩ rfl ⟨none, none⟩ ⟨none, none⟩
      ⟨some 2, none⟩ none ⟨none, none⟩ ⟨none, none⟩).1 4 (by decide)⟩

/-- Helper: past the admin gate, the health record `getSystemHealth`
returns. -/
theorem getSystemHealth_data_eq (u : User) (hadm : isAdmin (some u) = true)
    (activeCount concCount : CountResp) (probe : DbResp Unit) (responseTime : Nat) :
    (getSystemHealth (some u) activeCount concCount probe responseTime).1.data
      = some
        { status :=
            if ((if probe.error.isSome then "disconnected"
                 else if 1000 < responseTime then "slow" else "connected") == "connected")
            then "healthy" else "critical"
          uptime := 99.9
          response_time := responseTime
          database_status :=
            if probe.error.isSome then "disconnected"
            else if 1000 < responseTime then "slow" else "connected"
          storage_usage := 65
          memory_usage := 45
          cpu_usage := 23
          active_users := activeCount.count.getD 0
          concurrent_tournaments := concCount.count.getD 0 } := by
  simp [getSystemHealth, hadm]

/-- C10: for an admin caller `getSystemHealth` returns the hard-coded values
uptime 99.9, storage 65, memory 45, CPU 23; its overall status is
`'healthy'` exactly when the database status is `'connected'` (probe
succeeded within 1000 ms) and `'critical'` otherwise; `'warning'` is never
returned. -/
theorem c10_system_health_constants (u : User) (hrole : u.role = "admin")
    (activeCount concCount : CountResp) (probe : DbResp Unit) (responseTime : Nat) :
    ∃ d, (getSystemHealth (some u) activeCount concCount probe responseTime).1.data = some d ∧
      d.uptime = 99.9 ∧ d.storage_usage = 65 ∧ d.memory_usage = 45 ∧ d.cpu_usage = 23 ∧
      (d.status = "healthy" ↔ d.database_status = "connected") ∧
      (d.database_status = "connected" ↔ probe.error = none ∧ responseTime ≤ 1000) ∧
      d.status ≠ "warning" ∧
      (d.status = "healthy" ∨ d.status = "critical") := by
  have hadm : isAdmin (some u) = true := by simp [isAdmin, hrole]
  refine ⟨_, getSystemHealth_data_eq u hadm activeCount concCount probe responseTime,
    rfl, rfl, rfl, rfl, ?_, ?_, ?_, ?_⟩ <;>
    rcases hpe : probe.error with _ | e <;>
      rcases Nat.lt_or_ge 1000 responseTime with hrt | hrt <;>
        simp [hpe, hrt, Nat.not_lt.mpr hrt]

/-- Witness for C10 at a concrete admin caller with a fast successful
probe. -/
theorem c10_system_health_constants_witness :
    ∃ d, (getSystemHealth (some ⟨"u1", "admin"⟩) ⟨some 4, none⟩ ⟨some 1, none⟩
        ⟨some (), none⟩ 120).1.data = some d ∧
      d.uptime = 99.9 ∧ d.storage_usage = 65 ∧ d.memory_usage = 45 ∧ d.cpu_usage = 23 ∧
      (d.status = "healthy" ↔ d.database_status = "connected") ∧
      (d.database_status = "connected" ↔
        (⟨some (), none⟩ : DbResp Unit).error = none ∧ 120 ≤ 1000) ∧
      d.status ≠ "warning" ∧
      (d.status = "healthy" ∨ d.status = "critical") :=
  c10_system_health_constants ⟨"u1", "admin"⟩ rfl ⟨some 4, none⟩ ⟨some 1, none⟩
    ⟨some (), none⟩ 120

end Goalden
